import Mathlib

/-!
Verification development for the QR content-classification engine and the
URL risk-heuristics engine of this repository.

The classifier (function parseQrContent and the seven type detectors) is a
shallow embedding of the TypeScript source in src/unnamed/part_006; the risk
engine (function checkUrlSafety and its helper predicates) is a shallow
embedding of src/lib/storage-utils.ts.  JavaScript strings are modelled as
Lean String values (lists of characters); the regular expressions of the
source are unfolded into executable character-list predicates, with the
source regex quoted next to each; the browser-provided WHATWG URL parser
(new URL) is an external dependency of both engines and is modelled as an
oracle parameter of type String -> Option UrlObj: every theorem quantifying
over the oracle therefore holds for the real parser as a special case.
Exceptions cannot occur in the embedding (all functions are total), which
models the source behaviour that every throwing path is caught and
converted into a "no match" / fallback value.
-/

/-! ## JavaScript string primitives -/

/-- The JavaScript whitespace class `\s` (also the set trimmed by
`String.prototype.trim`): space, tab, line feed, vertical tab, form feed,
carriage return, NBSP, Ogham space mark, the U+2000..U+200A spaces, line
and paragraph separators, narrow NBSP, medium mathematical space,
ideographic space and the BOM. -/
def jsWhitespaceChar (c : Char) : Bool :=
  c == ' ' || c == '\t' || c == '\n' || c == '\u000b' || c == '\u000c' || c == '\r' ||
  c == '\u00a0' || c == '\u1680' || ('\u2000' ≤ c && c ≤ '\u200a') ||
  c == '\u2028' || c == '\u2029' || c == '\u202f' || c == '\u205f' ||
  c == '\u3000' || c == '\ufeff'

/-- Line terminators, the characters NOT matched by the regex metachar `.`
when the `s` flag is absent. -/
def isLineTerminator (c : Char) : Bool :=
  c == '\n' || c == '\r' || c == '\u2028' || c == '\u2029'

/-- `String.prototype.trim` (drops `\s` characters from both ends). -/
def jsTrim (s : String) : String :=
  String.mk (((s.data.dropWhile jsWhitespaceChar).reverse.dropWhile jsWhitespaceChar).reverse)

/-- `String.prototype.toLowerCase`, restricted to its ASCII action (the
inputs the engines compare case-insensitively are ASCII literals). -/
def jsToLower (s : String) : String :=
  String.mk (s.data.map Char.toLower)

/-- Prefix test over the character lists (JS `String.prototype.startsWith`
for whole-character content). -/
def jsStartsWith (s pre : String) : Bool :=
  pre.data.isPrefixOf s.data

/-- Suffix test over the character lists (JS `String.prototype.endsWith`). -/
def jsEndsWith (s suf : String) : Bool :=
  suf.data.isSuffixOf s.data

/-- `String.prototype.substring(n)` / drop of the first n characters. -/
def jsDrop (s : String) (n : Nat) : String :=
  String.mk (s.data.drop n)

/-- Take of the first n characters (used by `String.prototype.slice`). -/
def jsTake (s : String) (n : Nat) : String :=
  String.mk (s.data.take n)

/-- `String.prototype.split` on a one-character separator; the
accumulator holds the current segment reversed. -/
def splitCharAux (sep : Char) : List Char → List Char → List String
  | [], acc => [String.mk acc.reverse]
  | c :: rest, acc =>
    if c == sep then String.mk acc.reverse :: splitCharAux sep rest []
    else splitCharAux sep rest (c :: acc)

/-- `s.split(sep)` for a one-character separator. -/
def jsSplitChar (s : String) (sep : Char) : List String :=
  splitCharAux sep s.data []

/-- `Array.prototype.join(sep)` for a one-character separator. -/
def joinChar (sep : Char) (parts : List String) : String :=
  String.mk (List.intercalate [sep] (parts.map (·.data)))

/-- `s.toLowerCase().startsWith(pre)`, the case-insensitive prefix test the
source uses for the `mailto:` / `tel:` / `sms:` / `smsto:` / `wifi:`
scheme dispatch. -/
def startsWithCI (s pre : String) : Bool :=
  jsStartsWith (jsToLower s) pre

/-- `String.prototype.includes`: substring occurrence test. -/
def strIncludesAux (needle : List Char) : List Char → Bool
  | [] => needle.isEmpty
  | c :: rest => needle.isPrefixOf (c :: rest) || strIncludesAux needle rest

/-- `hay.includes(needle)`. -/
def strIncludes (hay needle : String) : Bool :=
  strIncludesAux needle.data hay.data

/-- `p.replace(':', '')` for a scheme string: a string-pattern
`String.prototype.replace` removes only the FIRST occurrence. -/
def stripFirstColon (p : String) : String :=
  String.mk (p.data.takeWhile (fun c => c != ':') ++ ((p.data.dropWhile (fun c => c != ':')).drop 1))

/-- Split on the regex `/\r?\n/` (used by the vCard detector): breaks at
each LF, also consuming an immediately preceding CR.  The accumulator
holds the current line reversed. -/
def splitLinesAux : List Char → List Char → List String
  | [], acc => [String.mk acc.reverse]
  | '\n' :: rest, acc =>
      (String.mk (match acc with
        | '\r' :: a => a.reverse
        | _ => acc.reverse)) :: splitLinesAux rest []
  | c :: rest, acc => splitLinesAux rest (c :: acc)

/-- `content.split(/\r?\n/)`. -/
def jsSplitLines (s : String) : List String :=
  splitLinesAux s.data []

/-- Assignment to a plain JavaScript object used as a string map: replaces
the value of an existing key in place, otherwise appends the key (JS
objects keep string keys in insertion order). -/
def jsObjSet (m : List (String × String)) (k v : String) : List (String × String) :=
  match m with
  | [] => [(k, v)]
  | (k', v') :: rest => if k' == k then (k', v) :: rest else (k', v') :: jsObjSet rest k v

/-- Property read from a JavaScript object used as a string map. -/
def jsObjGet (m : List (String × String)) (k : String) : Option String :=
  (m.find? (fun p => p.1 == k)).map (·.2)

/-! ## The external URL parser

`new URL(s)` is a browser builtin, external to this repository.  The parts
of its result the two engines read are the hostname, the protocol
(scheme plus trailing colon), the pathname, and the decoded query
parameters (`URLSearchParams`).  It is passed to the embedded functions as
an oracle `String → Option UrlObj`; `none` models the parser throwing. -/

structure UrlObj where
  hostname : String
  protocol : String
  pathname : String
  params : List (String × String)
deriving DecidableEq

/-- An oracle for inputs on which no detector ever consults the URL
parser (used to close concrete statements; the statements it appears in
never force it). -/
def noURL : String → Option UrlObj := fun _ => none

/-- `URLSearchParams.get(k) || undefined` — the source coerces both a
missing parameter (null) and an empty-string value to undefined. -/
def jsParamGetOpt (u : UrlObj) (k : String) : Option String :=
  match (u.params.find? (fun p => p.1 == k)).map (·.2) with
  | some v => if v == "" then none else some v
  | none => none

/-! ## Classifier data model (src/unnamed/part_006, lines 20-69)

The `actions` lists of the source are arrays of closures over browser
globals (window.open, clipboard); they are not part of any claim under
verification and are omitted from the embedding.  `parsedData`, typed
`any` in the source, is embedded as the tagged union of the per-type
record shapes the source actually constructs.  The source's WiFiData
declares `security : 'WPA' | 'WEP' | 'nopass'`, but the runtime value is
produced by an unchecked cast `(params.T as ...) || 'WPA'`, so the
embedding gives the field the honest runtime type String. -/

inductive QrType
  | url | email | phone | sms | wifi | vcard | text
deriving DecidableEq

structure UrlData where
  url : String
  domain : String
  protocol : String
deriving DecidableEq

structure EmailData where
  email : String
  subject : Option String
  body : Option String
deriving DecidableEq

structure PhoneData where
  phone : String
  formatted : String
deriving DecidableEq

structure SmsData where
  phone : String
  message : Option String
deriving DecidableEq

structure WiFiData where
  ssid : String
  password : String
  security : String
  hidden : Bool
deriving DecidableEq

/-- vCard record.  Each field is `Option (Option String)`: the outer layer
records whether the JS property was ever assigned (`Object.keys` counts a
key even when the assigned value is undefined), the inner layer is the
assigned value (`line.split(':')[1]` can be undefined). -/
structure VCardData where
  name : Option (Option String)
  organization : Option (Option String)
  phone : Option (Option String)
  email : Option (Option String)
  url : Option (Option String)
deriving DecidableEq

inductive ParsedData
  | urlD (d : UrlData)
  | emailD (d : EmailData)
  | phoneD (d : PhoneData)
  | smsD (d : SmsData)
  | wifiD (d : WiFiData)
  | vcardD (d : VCardData)
  | textD (t : String)
deriving DecidableEq

structure ParsedQrContent where
  type : QrType
  parsedData : ParsedData
deriving DecidableEq

/-- The classifier input: `parseQrContent` is typed `(content: string)`
but is defensively called with and guards against null, undefined and
non-string values, all of which behave identically (both `!content` and
`typeof content !== 'string'` short-circuit them to the same record). -/
inductive JsInput
  | str (s : String)
  | nullV
  | undefinedV
  | nonString
deriving DecidableEq

def textResult (t : String) : ParsedQrContent :=
  ⟨.text, .textD t⟩

/-! ## Type detectors (src/unnamed/part_006, lines 74-303) -/

/-- The regex `/^https?:\/\/[^\s/$.?#].[^\s]*$/i` of parseUrl (line 77):
an http or https scheme (case-insensitive), one character that is neither
whitespace nor one of `/$.?#`, one character that is not a line
terminator (the metachar `.`), then non-whitespace to the end. -/
def urlRegexTest (s : String) : Bool :=
  let low := (jsToLower s).data
  let k : Option Nat :=
    if low.take 8 == "https://".data then some 8
    else if low.take 7 == "http://".data then some 7
    else none
  match k with
  | none => false
  | some n =>
    match s.data.drop n with
    | [] => false
    | c1 :: rest1 =>
      if jsWhitespaceChar c1 || c1 == '/' || c1 == '$' || c1 == '.' || c1 == '?' || c1 == '#' then
        false
      else
        match rest1 with
        | [] => false
        | c2 :: rest2 => !(isLineTerminator c2) && rest2.all (fun c => !(jsWhitespaceChar c))

/-- parseUrl (lines 74-91): regex gate, then `new URL`, extracting
hostname and the protocol with its colon removed; a parse throw is
"no match". -/
def parseUrl (newURL : String → Option UrlObj) (content : String) : Option UrlData :=
  if !(urlRegexTest content) then none
  else
    match newURL content with
    | none => none
    | some u => some ⟨content, u.hostname, stripFirstColon u.protocol⟩

/-- The email regex `/^[^\s@]+@[^\s@]+\.[^\s@]+$/` (lines 104 and 122):
no whitespace anywhere, exactly one `@` with a nonempty local part, and
after the `@` a dot that is neither the first nor the last remaining
character. -/
def emailRegexTest (s : String) : Bool :=
  let cs := s.data
  let before := cs.takeWhile (fun c => c != '@')
  let after := (cs.dropWhile (fun c => c != '@')).drop 1
  !before.isEmpty && !(after.contains '@') &&
  cs.all (fun c => !(jsWhitespaceChar c)) &&
  ((after.drop 1).dropLast.contains '.')

/-- parseEmail (lines 96-130): a `mailto:` URI (address = pathname,
subject/body from the query, empty values coerced to undefined) or a bare
address matching the email regex. -/
def parseEmail (newURL : String → Option UrlObj) (content : String) : Option EmailData :=
  if startsWithCI content "mailto:" then
    match newURL content with
    | none => none
    | some u =>
      if emailRegexTest u.pathname then
        some ⟨u.pathname, jsParamGetOpt u "subject", jsParamGetOpt u "body"⟩
      else none
  else
    if emailRegexTest content then some ⟨content, none, none⟩ else none

/-- parsePhone's cleaning step `content.replace(/[^\d+]/g, '')` (lines 137
and 150): keeps every digit and every `+`, wherever they occur. -/
def cleanPhone (s : String) : String :=
  String.mk (s.data.filter (fun c => c.isDigit || c == '+'))

/-- The international pattern `/^\+\d{1,3}\d{4,14}$/` (line 141): a `+`
followed by 5 to 17 digits. -/
def intlFormMatch (s : String) : Bool :=
  match s.data with
  | '+' :: ds => ds.all Char.isDigit && decide (5 ≤ ds.length) && decide (ds.length ≤ 17)
  | _ => false

/-- The domestic pattern `/^\d{10,15}$/` (line 142): 10 to 15 digits. -/
def domesticFormMatch (s : String) : Bool :=
  s.data.all Char.isDigit && decide (10 ≤ s.data.length) && decide (s.data.length ≤ 15)

/-- The pattern `/^tel:\+?\d+$/i` (line 143) over a character list. -/
def telPatternMatchL : List Char → Bool
  | t :: e :: l :: c :: rest =>
      t.toLower == 't' && e.toLower == 'e' && l.toLower == 'l' && c == ':' &&
      (match rest with
       | '+' :: ds => !ds.isEmpty && ds.all Char.isDigit
       | ds => !ds.isEmpty && ds.all Char.isDigit)
  | _ => false

/-- The pattern `/^tel:\+?\d+$/i` (line 143). -/
def telPatternMatch (s : String) : Bool :=
  telPatternMatchL s.data

/-- The string parsePhone tests its patterns against (lines 146-151): the
cleaned input, except that a `tel:`-prefixed input is first stripped of
the prefix and then cleaned. -/
def phoneCandidate (content : String) : String :=
  if startsWithCI content "tel:" then cleanPhone (jsDrop content 4)
  else cleanPhone content

/-- formatPhoneNumber (lines 168-179). -/
def formatPhoneNumber (phone : String) : String :=
  if jsStartsWith phone "+" then phone
  else if phone.length == 10 then
    "(" ++ (jsTake phone 3) ++ ") " ++ (jsTake (jsDrop phone 3) 3) ++ "-" ++ (jsDrop phone 6)
  else phone

/-- parsePhone (lines 135-163): accept when one of the three patterns
matches the candidate string and its length (counting a leading `+`) is
at least 7. -/
def parsePhone (content : String) : Option PhoneData :=
  let phoneNumber := phoneCandidate content
  if (intlFormMatch phoneNumber || domesticFormMatch phoneNumber || telPatternMatch phoneNumber)
      && decide (7 ≤ phoneNumber.length) then
    some ⟨phoneNumber, formatPhoneNumber phoneNumber⟩
  else none

/-- parseSms (lines 184-224): an `sms:` URI (phone = pathname, body from
the query) or an `SMSTO:` form (`smsto:<phone>:<message>`, colon-split,
only the first two segments used); an empty phone segment is "no match". -/
def parseSms (newURL : String → Option UrlObj) (content : String) : Option SmsData :=
  if startsWithCI content "sms:" then
    match newURL content with
    | none => none
    | some u =>
      if u.pathname == "" then none
      else some ⟨u.pathname, jsParamGetOpt u "body"⟩
  else if startsWithCI content "smsto:" then
    let parts := jsSplitChar (jsDrop content 6) ':'
    let phone := parts.getD 0 ""
    if phone == "" then none
    else
      some ⟨phone,
        match parts.get? 1 with
        | some m => if m == "" then none else some m
        | none => none⟩
  else none

/-- parseWifi's key:value accumulation (lines 239-246): split the body on
`;`, and for every part containing a colon bind the text before the first
colon to the text after it (later parts overwrite earlier ones). -/
def wifiParams (wifiString : String) : List (String × String) :=
  (jsSplitChar wifiString ';').foldl
    (fun m part =>
      if part.data.contains ':' then
        match jsSplitChar part ':' with
        | k :: rest => jsObjSet m k (joinChar ':' rest)
        | [] => m
      else m)
    []

/-- parseWifi (lines 229-266).  `params.T || 'WPA'` passes any nonempty
`T` value through unchecked (the source merely casts it); `H === 'true'`;
an empty (or missing) SSID is "no match". -/
def parseWifi (content : String) : Option WiFiData :=
  if startsWithCI content "wifi:" then
    let params := wifiParams (jsDrop content 5)
    let ssid := (jsObjGet params "S").getD ""
    let password := (jsObjGet params "P").getD ""
    let security :=
      match jsObjGet params "T" with
      | some t => if t == "" then "WPA" else t
      | none => "WPA"
    let hidden := (jsObjGet params "H").getD "" == "true"
    if ssid == "" then none
    else some ⟨ssid, password, security, hidden⟩
  else none

/-- One line of the vCard field scan (lines 280-292): the first matching
branch of the if/else-if chain assigns the corresponding property. -/
def vcardStep (v : VCardData) (line : String) : VCardData :=
  if jsStartsWith line "FN:" then { v with name := some (some (jsDrop line 3)) }
  else if jsStartsWith line "ORG:" then { v with organization := some (some (jsDrop line 4)) }
  else if jsStartsWith line "TEL:" || strIncludes line "TEL;" then
    { v with phone := some ((jsSplitChar line ':').get? 1) }
  else if jsStartsWith line "EMAIL:" || strIncludes line "EMAIL;" then
    { v with email := some ((jsSplitChar line ':').get? 1) }
  else if jsStartsWith line "URL:" then { v with url := some (some (jsDrop line 4)) }
  else v

/-- `Object.keys(vcard).length`: the number of properties ever assigned
(a property assigned the undefined value still counts). -/
def vcardKeyCount (v : VCardData) : Nat :=
  (if v.name.isSome then 1 else 0) + (if v.organization.isSome then 1 else 0) +
  (if v.phone.isSome then 1 else 0) + (if v.email.isSome then 1 else 0) +
  (if v.url.isSome then 1 else 0)

def emptyVCard : VCardData := ⟨none, none, none, none, none⟩

/-- parseVCard (lines 271-303): requires both markers somewhere in the
content, scans the lines, and reports a match only when at least one
property was assigned. -/
def parseVCard (content : String) : Option VCardData :=
  if strIncludes content "BEGIN:VCARD" && strIncludes content "END:VCARD" then
    let v := (jsSplitLines content).foldl vcardStep emptyVCard
    if decide (0 < vcardKeyCount v) then some v else none
  else none

/-- parseQrContent (lines 500-670).  The memoizing cache (lines 522-541,
553-657) is keyed by the exact trimmed content and stores the value the
chain below computes for it, so it never changes the returned value and
is elided here; the top-level catch (lines 660-669) is unreachable in the
total embedding. -/
def parseQrContent (newURL : String → Option UrlObj) (content : JsInput) : ParsedQrContent :=
  match content with
  | .nullV => textResult ""
  | .undefinedV => textResult ""
  | .nonString => textResult ""
  | .str s =>
    if s == "" then textResult ""
    else
      let t := jsTrim s
      if t.length == 0 then textResult ""
      else
        match parseUrl newURL t with
        | some d => ⟨.url, .urlD d⟩
        | none =>
          match parseEmail newURL t with
          | some d => ⟨.email, .emailD d⟩
          | none =>
            match parseSms newURL t with
            | some d => ⟨.sms, .smsD d⟩
            | none =>
              match parseWifi t with
              | some d => ⟨.wifi, .wifiD d⟩
              | none =>
                match parseVCard t with
                | some d => ⟨.vcard, .vcardD d⟩
                | none =>
                  match parsePhone t with
                  | some d => ⟨.phone, .phoneD d⟩
                  | none => textResult t

/-! ## URL risk heuristics data model (src/lib/storage-utils.ts)

`SecurityAnalysis` (lines 185-190) is also the running state of the check
pipeline inside checkUrlSafety (lines 344-347 initialize it). -/

inductive Risk
  | low | medium | high
deriving DecidableEq

structure SecurityAnalysis where
  isSafe : Bool
  riskLevel : Risk
  warnings : List String
  recommendations : List String
deriving DecidableEq

/-- URL_SHORTENERS (lines 203-212). -/
def URL_SHORTENERS : List String :=
  ["bit.ly", "tinyurl.com", "t.co", "goo.gl", "ow.ly", "is.gd", "buff.ly",
   "adf.ly", "short.link", "tiny.cc", "lnkd.in", "rebrand.ly", "cutt.ly",
   "bl.ink", "clck.ru", "short.io", "v.gd", "x.co", "po.st", "soo.gd",
   "trib.al", "u.to", "qr.ae", "go2l.ink", "x.gd", "ift.tt", "amzn.to",
   "youtu.be", "fb.me", "ln.is", "db.tt", "qr.net", "owl.li", "adcrun.ch",
   "ity.im", "q.gs", "viid.me", "bc.vc", "twitthis.com", "u.bb", "yourls.org",
   "prettylinkpro.com", "scrnch.me", "filoops.info", "vzturl.com", "qr.net",
   "link.zip", "short.gy", "tiny.one", "rb.gy", "chilp.it", "short.cm"]

/-- SUSPICIOUS_TLDS (lines 215-222). -/
def SUSPICIOUS_TLDS : List String :=
  ["tk", "ml", "ga", "cf", "click", "download", "zip", "review", "country",
   "science", "work", "party", "gq", "men", "date", "racing", "loan",
   "stream", "cricket", "accountant", "faith", "win", "bid", "trade",
   "webcam", "top", "kim", "pw", "space", "website", "online", "site",
   "tech", "club", "info", "biz", "mobi", "name", "pro", "tel", "travel",
   "xxx", "adult", "porn", "sex", "casino", "bet", "poker", "game"]

/-- SAFE_DOMAINS (lines 225-234). -/
def SAFE_DOMAINS : List String :=
  ["google.com", "youtube.com", "facebook.com", "twitter.com", "instagram.com",
   "linkedin.com", "github.com", "stackoverflow.com", "wikipedia.org",
   "amazon.com", "microsoft.com", "apple.com", "netflix.com", "reddit.com",
   "discord.com", "zoom.us", "dropbox.com", "spotify.com", "twitch.tv",
   "paypal.com", "ebay.com", "adobe.com", "salesforce.com", "oracle.com",
   "ibm.com", "intel.com", "nvidia.com", "amd.com", "hp.com", "dell.com",
   "mozilla.org", "cloudflare.com", "aws.amazon.com", "azure.microsoft.com",
   "cloud.google.com", "heroku.com", "vercel.com", "netlify.com", "firebase.google.com"]

/-- REDIRECT_PARAMS (lines 237-242). -/
def REDIRECT_PARAMS : List String :=
  ["redirect", "url", "next", "return", "returnUrl", "continue", "goto",
   "target", "destination", "forward", "link", "ref", "referer", "referrer",
   "callback", "success", "failure", "error", "exit", "out", "external",
   "redir", "redirect_uri", "return_to", "back", "from", "source", "origin"]

/-- SUSPICIOUS_KEYWORDS (lines 245-250). -/
def SUSPICIOUS_KEYWORDS : List String :=
  ["phishing", "scam", "fraud", "fake", "malware", "virus", "trojan",
   "ransomware", "spam", "hack", "crack", "warez", "keygen", "serial",
   "patch", "loader", "activator", "bypass", "exploit", "payload",
   "backdoor", "rootkit", "botnet", "ddos", "attack", "breach"]

/-! ## Risk-heuristic helper predicates (storage-utils.ts, lines 553-663) -/

/-- isUrlShortener (lines 553-557). -/
def isUrlShortener (hostname : String) : Bool :=
  URL_SHORTENERS.any (fun shortener =>
    hostname == shortener || jsEndsWith hostname ("." ++ shortener))

/-- The IPv4 pattern `/^(\d{1,3}\.){3}\d{1,3}$/` (line 564): exactly four
dot-separated groups of 1-3 digits. -/
def ipv4Test (hostname : String) : Bool :=
  let parts := jsSplitChar hostname '.'
  parts.length == 4 &&
  parts.all (fun p => decide (1 ≤ p.length) && decide (p.length ≤ 3) && p.data.all Char.isDigit)

def isHexDigit (c : Char) : Bool :=
  c.isDigit || ('a' ≤ c && c ≤ 'f') || ('A' ≤ c && c ≤ 'F')

/-- The IPv6 pattern `/^([0-9a-f]{0,4}:){2,7}[0-9a-f]{0,4}$/i` (line 567):
3 to 8 colon-separated groups of at most 4 hex digits each. -/
def ipv6Test (s : String) : Bool :=
  let parts := jsSplitChar s ':'
  decide (3 ≤ parts.length) && decide (parts.length ≤ 8) &&
  parts.all (fun p => decide (p.length ≤ 4) && p.data.all isHexDigit)

/-- `hostname.replace(/^\[|\]$/g, '')` (line 566): strips one leading
`[` and one trailing `]`. -/
def stripBrackets (s : String) : String :=
  let s1 := if jsStartsWith s "[" then jsDrop s 1 else s
  if jsEndsWith s1 "]" then String.mk s1.data.dropLast else s1

/-- isIpAddress (lines 562-570). -/
def isIpAddress (hostname : String) : Bool :=
  ipv4Test hostname || ipv6Test (stripBrackets hostname)

/-- hasSuspiciousTld (lines 575-579): membership of the last dot-segment
in the suspicious list. -/
def hasSuspiciousTld (hostname : String) : Bool :=
  let parts := jsSplitChar hostname '.'
  SUSPICIOUS_TLDS.contains (jsToLower (parts.getLastD ""))

/-- hasRedirectParameters (lines 584-591). -/
def hasRedirectParameters (params : List (String × String)) : Bool :=
  REDIRECT_PARAMS.any (fun p => params.any (fun q => q.1 == p))

/-- hasExcessiveSubdomains (lines 596-599): more than 4 dot-separated
labels. -/
def hasExcessiveSubdomains (hostname : String) : Bool :=
  decide (4 < (jsSplitChar hostname '.').length)

/-- isSafeDomain (lines 604-609). -/
def isSafeDomain (hostname : String) : Bool :=
  let lowerHostname := jsToLower hostname
  SAFE_DOMAINS.any (fun safeDomain =>
    lowerHostname == safeDomain || jsEndsWith lowerHostname ("." ++ safeDomain))

/-- hasSuspiciousKeywords (lines 614-617). -/
def hasSuspiciousKeywords (url : String) : Bool :=
  let lowerUrl := jsToLower url
  SUSPICIOUS_KEYWORDS.any (fun keyword => strIncludes lowerUrl keyword)

/-- True when the list has somewhere a run of at least n consecutive
characters satisfying p; cnt is the length of the current run. -/
def hasRunAux (p : Char → Bool) (n : Nat) : List Char → Nat → Bool
  | [], cnt => decide (n ≤ cnt)
  | c :: rest, cnt =>
    if p c then hasRunAux p n rest (cnt + 1)
    else decide (n ≤ cnt) || hasRunAux p n rest 0

def hasCharClassRun (p : Char → Bool) (n : Nat) (s : String) : Bool :=
  hasRunAux p n s.data 0

/-- The pattern `/(.)\1{4,}/` (line 256): five or more consecutive copies
of one character (the metachar `.` excludes line terminators). -/
def hasRepeatedRun : List Char → Bool
  | [] => false
  | c :: rest =>
    (!(isLineTerminator c) && (rest.take 4).length == 4 && (rest.take 4).all (fun d => d == c)) ||
    hasRepeatedRun rest

def isLowerAlpha (c : Char) : Bool := 'a' ≤ c && c ≤ 'z'

/-- The pattern `/[a-z]-[a-z]-[a-z]/` (line 258). -/
def hasDashPattern : List Char → Bool
  | a :: b :: c :: d :: e :: rest =>
    (isLowerAlpha a && b == '-' && isLowerAlpha c && d == '-' && isLowerAlpha e) ||
    hasDashPattern (b :: c :: d :: e :: rest)
  | _ => false

/-- The remainders reachable by consuming 1 to 3 digits (`[0-9]{1,3}`). -/
def matchDigits13 (cs : List Char) : List (List Char) :=
  match cs with
  | [] => []
  | c1 :: r1 =>
    if c1.isDigit then
      [r1] ++
      (match r1 with
       | [] => []
       | c2 :: r2 =>
         if c2.isDigit then
           [r2] ++
           (match r2 with
            | [] => []
            | c3 :: r3 => if c3.isDigit then [r3] else [])
         else [])
    else []

def matchDashDigits (cs : List Char) : List (List Char) :=
  match cs with
  | '-' :: r => matchDigits13 r
  | _ => []

/-- A match of `[0-9]{1,3}-[0-9]{1,3}-[0-9]{1,3}-[0-9]{1,3}` starting at
the head of the list. -/
def ipLikeAt (cs : List Char) : Bool :=
  (matchDigits13 cs).any (fun r1 =>
    (matchDashDigits r1).any (fun r2 =>
      (matchDashDigits r2).any (fun r3 => !(matchDashDigits r3).isEmpty)))

/-- The pattern `/[0-9]{1,3}-[0-9]{1,3}-[0-9]{1,3}-[0-9]{1,3}/` (line 254),
unanchored: a match starting at some position. -/
def hasIpLikeDash : List Char → Bool
  | [] => false
  | c :: rest => ipLikeAt (c :: rest) || hasIpLikeDash rest

/-- hasSuspiciousPatterns (lines 622-624) over SUSPICIOUS_PATTERNS
(lines 253-259), in source order: IP-like dashed digits, a run of 20+
lowercase alphanumerics, 5+ repeats of one character, a run of 10+
digits, letter-dash-letter-dash-letter. -/
def hasSuspiciousPatterns (url : String) : Bool :=
  hasIpLikeDash url.data ||
  hasCharClassRun (fun c => isLowerAlpha c || c.isDigit) 20 url ||
  hasRepeatedRun url.data ||
  hasCharClassRun Char.isDigit 10 url ||
  hasDashPattern url.data

def homographChars : List Char :=
  ['\u043e', '\u0430', '\u0440', '\u0435', '\u043c', '\u0445', '\u0441',
   '\u03bf', '\u03b1']

def isLatinLetter (c : Char) : Bool :=
  ('a' ≤ c && c ≤ 'z') || ('A' ≤ c && c ≤ 'Z')

/-- hasHomographAttack (lines 630-663): two or more of the four script
classes present, or one of the known lookalike code points present. -/
def hasHomographAttack (hostname : String) : Bool :=
  let hasLatin := hostname.data.any isLatinLetter
  let hasCyrillic := hostname.data.any (fun c => '\u0400' ≤ c && c ≤ '\u04ff')
  let hasGreek := hostname.data.any (fun c => '\u0370' ≤ c && c ≤ '\u03ff')
  let hasArabic := hostname.data.any (fun c => '\u0600' ≤ c && c ≤ '\u06ff')
  let scriptCount := ([hasLatin, hasCyrillic, hasGreek, hasArabic].filter (fun b => b)).length
  if decide (1 < scriptCount) then true
  else homographChars.any (fun ch => hostname.data.contains ch)

/-! ## The check pipeline of checkUrlSafety (storage-utils.ts, lines 343-521) -/

/-- The state at line 344-347: no warnings, low risk, assumed safe. -/
def initState : SecurityAnalysis :=
  ⟨true, .low, [], []⟩

/-- The common body of every triggered check: push one warning and one
recommendation, set the risk level, clear isSafe. -/
def trigger (st : SecurityAnalysis) (w r : String) (lvl : Risk) : SecurityAnalysis :=
  { st with
    warnings := st.warnings ++ [w]
    recommendations := st.recommendations ++ [r]
    riskLevel := lvl
    isSafe := false }

/-- A conditional check: trigger when the condition holds, otherwise leave
the state unchanged (a throwing check is also "unchanged", per the
per-check catch blocks). -/
def applyCheck (cond : Bool) (w r : String) (lvl : Risk) (st : SecurityAnalysis) : SecurityAnalysis :=
  if cond then trigger st w r lvl else st

/-- The protocol check (lines 377-392): http is a warning, any
non-http(s) scheme is a different warning, https is silent. -/
def protocolCheck (protocol : String) (st : SecurityAnalysis) : SecurityAnalysis :=
  if protocol == "http:" then
    trigger st "This URL does not use HTTPS encryption"
      "Look for an HTTPS version of this site" .medium
  else if protocol != "https:" then
    trigger st "URL uses an unsupported or potentially unsafe protocol"
      "Use HTTPS URLs when possible for better security" .medium
  else st

/-- The six unconditional checks (lines 377-452) in source order:
protocol, shortener, IP literal, suspicious TLD, redirect parameters,
subdomain depth.  The hostname is lowercased once at line 371. -/
def sixChecks (u : UrlObj) : SecurityAnalysis :=
  applyCheck (hasExcessiveSubdomains (jsToLower u.hostname))
    "URL has an unusually complex subdomain structure"
    "Complex subdomains can be used to deceive users" .medium
    (applyCheck (hasRedirectParameters u.params)
      "URL contains parameters that might redirect to another site"
      "Check where this URL actually leads before clicking" .medium
      (applyCheck (hasSuspiciousTld (jsToLower u.hostname))
        "URL uses a domain extension commonly associated with suspicious sites"
        "Exercise extra caution with this domain extension" .medium
        (applyCheck (isIpAddress (jsToLower u.hostname))
          "URL uses an IP address instead of a domain name"
          "Legitimate websites typically use domain names, not IP addresses" .high
          (applyCheck (isUrlShortener (jsToLower u.hostname))
            "This is a shortened URL - the actual destination is hidden"
            "Be cautious with shortened URLs from unknown sources" .medium
            (protocolCheck u.protocol initState)))))

/-- The aggregate pass (lines 454-465): zero warnings means low risk and
isSafe exactly for https; three or more warnings, or an already-high
risk, means high and unsafe; otherwise (at least one warning) medium and
unsafe. -/
def aggregateRisk (protocol : String) (st : SecurityAnalysis) : SecurityAnalysis :=
  if st.warnings.length == 0 then
    { st with riskLevel := .low, isSafe := protocol == "https:" }
  else if decide (3 ≤ st.warnings.length) || st.riskLevel == .high then
    { st with riskLevel := .high, isSafe := false }
  else if decide (1 ≤ st.warnings.length) then
    { st with riskLevel := .medium, isSafe := false }
  else st

/-- The state right after the aggregate pass. -/
def afterAggregate (u : UrlObj) : SecurityAnalysis :=
  aggregateRisk u.protocol (sixChecks u)

/-- The three forcing checks (lines 467-501) run after the aggregate
pass, each escalating straight to high risk: suspicious keywords and
suspicious patterns over the whole trimmed URL string, homograph
detection over the hostname. -/
def forcingChecks (trimmedUrl : String) (u : UrlObj) : SecurityAnalysis :=
  applyCheck (hasHomographAttack (jsToLower u.hostname))
    "URL may use lookalike characters to impersonate legitimate sites"
    "Check carefully - this domain may be impersonating a trusted site" .high
    (applyCheck (hasSuspiciousPatterns trimmedUrl)
      "URL contains suspicious patterns commonly used in malicious links"
      "This URL structure is commonly associated with threats" .high
      (applyCheck (hasSuspiciousKeywords trimmedUrl)
        "URL contains suspicious keywords that may indicate malicious content"
        "Be extremely cautious - this URL may be dangerous" .high
        (afterAggregate u)))

/-- The safe-domain whitelist override (lines 503-514): a whitelisted
https hostname is forced safe and low, unless the risk already stands at
high. -/
def safeDomainOverride (hostname protocol : String) (st : SecurityAnalysis) : SecurityAnalysis :=
  if isSafeDomain hostname && protocol == "https:" then
    if st.riskLevel != .high then { st with isSafe := true, riskLevel := .low }
    else st
  else st

/-- The whole post-parse analysis of checkUrlSafety (lines 371-521),
applied to the trimmed URL string and the parsed URL object. -/
def analyzeUrl (trimmedUrl : String) (u : UrlObj) : SecurityAnalysis :=
  safeDomainOverride (jsToLower u.hostname) u.protocol (forcingChecks trimmedUrl u)

/-! ## The memoizing cache of checkUrlSafety (lines 192-341, 516-547)

The module-level Map is embedded as an association list in insertion
order (`Map.set` on an existing key updates in place).  `Date.now()` and
the `Math.random() < 0.2` cleanup draw are inputs of each call. -/

structure SecCacheEntry where
  data : SecurityAnalysis
  timestamp : Nat
deriving DecidableEq

abbrev SecCache := List (String × SecCacheEntry)

def SECURITY_CACHE_MAX_SIZE : Nat := 50

def SECURITY_CACHE_TTL : Nat := 10 * 60 * 1000

def cacheGet (c : SecCache) (k : String) : Option SecCacheEntry :=
  (c.find? (fun p => p.1 == k)).map (·.2)

def cacheSet (c : SecCache) (k : String) (e : SecCacheEntry) : SecCache :=
  match c with
  | [] => [(k, e)]
  | (k', e') :: rest => if k' == k then (k', e) :: rest else (k', e') :: cacheSet rest k e

def cacheDelete (c : SecCache) (k : String) : SecCache :=
  c.filter (fun p => p.1 != k)

/-- cleanupSecurityCache (lines 264-284): drop entries older than the
TTL, then, if the cache still exceeds the size bound, drop the oldest
entries (stable sort by timestamp, as Array.prototype.sort). -/
def cleanupSecurityCache (now : Nat) (c : SecCache) : SecCache :=
  let expiredKeys := (c.filter (fun p => decide (SECURITY_CACHE_TTL < now - p.2.timestamp))).map (·.1)
  let c := expiredKeys.foldl cacheDelete c
  if decide (SECURITY_CACHE_MAX_SIZE < c.length) then
    let entries := c.mergeSort (fun a b => decide (a.2.timestamp ≤ b.2.timestamp))
    let toRemove := entries.take (c.length - SECURITY_CACHE_MAX_SIZE)
    (toRemove.map (·.1)).foldl cacheDelete c
  else c

/-- checkUrlSafety (lines 291-548) for string inputs, with the cache
threaded explicitly.  `now` is the value Date.now() returns during the
call, `runCleanup` the outcome of the `Math.random() < 0.2` draw
(line 339), `newURL` the external URL parser.  The `typeof url` guard
(line 294) is unrepresentable for a String input; the top-level catch
(lines 530-547) is unreachable in the total embedding. -/
def checkUrlSafetyS (newURL : String → Option UrlObj) (now : Nat) (runCleanup : Bool)
    (url : String) (cache : SecCache) : SecurityAnalysis × SecCache :=
  let trimmedUrl := jsTrim url
  let cacheKey := jsToLower trimmedUrl
  if trimmedUrl.length == 0 then
    let emptyResult : SecurityAnalysis :=
      ⟨false, .high, ["Empty URL provided"], ["Please provide a valid URL"]⟩
    (emptyResult, cacheSet cache cacheKey ⟨emptyResult, now⟩)
  else
    match cacheGet cache cacheKey with
    | some cachedEntry =>
      if now - cachedEntry.timestamp < SECURITY_CACHE_TTL then
        (cachedEntry.data, cache)
      else
        checkAfterCacheMiss newURL now runCleanup trimmedUrl cacheKey
          (cacheDelete cache cacheKey)
    | none => checkAfterCacheMiss newURL now runCleanup trimmedUrl cacheKey cache
where
  /-- The computation path (lines 338-529): opportunistic cleanup, URL
  parse (unparseable means the high-risk error record), analysis, store. -/
  checkAfterCacheMiss (newURL : String → Option UrlObj) (now : Nat) (runCleanup : Bool)
      (trimmedUrl cacheKey : String) (cache : SecCache) : SecurityAnalysis × SecCache :=
    let cache := if runCleanup then cleanupSecurityCache now cache else cache
    match newURL trimmedUrl with
    | none =>
      let errorResult : SecurityAnalysis :=
        ⟨false, .high, ["Invalid URL format"],
         ["Please check that the URL is correctly formatted"]⟩
      (errorResult, cacheSet cache cacheKey ⟨errorResult, now⟩)
    | some urlObj =>
      let result := analyzeUrl trimmedUrl urlObj
      (result, cacheSet cache cacheKey ⟨result, now⟩)

/-! ## Concrete material for the cache-transparency analysis

Two URLs that differ only in the case of their paths.  checkUrlSafety
caches under the LOWERCASED trimmed URL (line 307), so both share one
cache key, but the suspicious-pattern check is case-sensitive (the
class `[a-z0-9]{20,}` does not match uppercase), so their fresh analyses
differ. -/

def cacheUrlLower : String := "https://example.com/abcdefghijklmnopqrstuvwxyz"

def cacheUrlUpper : String := "https://example.com/ABCDEFGHIJKLMNOPQRSTUVWXYZ"

/-- The values the browser URL parser returns on the two URLs above
(hostname example.com, scheme https, the path verbatim, no query). -/
def cacheOracle : String → Option UrlObj := fun s =>
  if s == cacheUrlLower then
    some ⟨"example.com", "https:", "/abcdefghijklmnopqrstuvwxyz", []⟩
  else if s == cacheUrlUpper then
    some ⟨"example.com", "https:", "/ABCDEFGHIJKLMNOPQRSTUVWXYZ", []⟩
  else none


/-! ## Helper lemmas -/

theorem string_eq_empty_of_length_zero (t : String) (h : t.length = 0) : t = "" := by
  cases t with
  | mk data =>
    cases data with
    | nil => rfl
    | cons a l => simp [String.length] at h

/-- Case analysis of the classifier on a string input: either the trimmed
input is empty (early text fallback), or the first matching detector in
source order determines the result, or no detector matches and the
trimmed content is wrapped as text. -/
theorem parseQrContent_shape (newURL : String → Option UrlObj) (s : String) :
    (jsTrim s = "" ∧ parseQrContent newURL (.str s) = textResult "") ∨
    (∃ d, parseUrl newURL (jsTrim s) = some d ∧
      parseQrContent newURL (.str s) = ⟨.url, .urlD d⟩) ∨
    (∃ d, parseUrl newURL (jsTrim s) = none ∧ parseEmail newURL (jsTrim s) = some d ∧
      parseQrContent newURL (.str s) = ⟨.email, .emailD d⟩) ∨
    (∃ d, parseUrl newURL (jsTrim s) = none ∧ parseEmail newURL (jsTrim s) = none ∧
      parseSms newURL (jsTrim s) = some d ∧
      parseQrContent newURL (.str s) = ⟨.sms, .smsD d⟩) ∨
    (∃ d, parseUrl newURL (jsTrim s) = none ∧ parseEmail newURL (jsTrim s) = none ∧
      parseSms newURL (jsTrim s) = none ∧ parseWifi (jsTrim s) = some d ∧
      parseQrContent newURL (.str s) = ⟨.wifi, .wifiD d⟩) ∨
    (∃ d, parseUrl newURL (jsTrim s) = none ∧ parseEmail newURL (jsTrim s) = none ∧
      parseSms newURL (jsTrim s) = none ∧ parseWifi (jsTrim s) = none ∧
      parseVCard (jsTrim s) = some d ∧
      parseQrContent newURL (.str s) = ⟨.vcard, .vcardD d⟩) ∨
    (∃ d, parseUrl newURL (jsTrim s) = none ∧ parseEmail newURL (jsTrim s) = none ∧
      parseSms newURL (jsTrim s) = none ∧ parseWifi (jsTrim s) = none ∧
      parseVCard (jsTrim s) = none ∧ parsePhone (jsTrim s) = some d ∧
      parseQrContent newURL (.str s) = ⟨.phone, .phoneD d⟩) ∨
    (parseUrl newURL (jsTrim s) = none ∧ parseEmail newURL (jsTrim s) = none ∧
      parseSms newURL (jsTrim s) = none ∧ parseWifi (jsTrim s) = none ∧
      parseVCard (jsTrim s) = none ∧ parsePhone (jsTrim s) = none ∧
      parseQrContent newURL (.str s) = textResult (jsTrim s)) := by
  by_cases h0 : s = ""
  · subst h0
    exact Or.inl ⟨rfl, rfl⟩
  · have h0' : (s == "") = false := by simp [h0]
    by_cases h1 : (jsTrim s).length = 0
    · have ht : jsTrim s = "" := string_eq_empty_of_length_zero _ h1
      exact Or.inl ⟨ht, by simp [parseQrContent, h0', h1]⟩
    · have h1' : ((jsTrim s).length == 0) = false := by simp [h1]
      cases hu : parseUrl newURL (jsTrim s) with
      | some d =>
        refine Or.inr (Or.inl ⟨d, rfl, ?_⟩)
        simp [parseQrContent, h0', h1', hu]
      | none =>
      cases he : parseEmail newURL (jsTrim s) with
      | some d =>
        refine Or.inr (Or.inr (Or.inl ⟨d, rfl, rfl, ?_⟩))
        simp [parseQrContent, h0', h1', hu, he]
      | none =>
      cases hs : parseSms newURL (jsTrim s) with
      | some d =>
        refine Or.inr (Or.inr (Or.inr (Or.inl ⟨d, rfl, rfl, rfl, ?_⟩)))
        simp [parseQrContent, h0', h1', hu, he, hs]
      | none =>
      cases hw : parseWifi (jsTrim s) with
      | some d =>
        refine Or.inr (Or.inr (Or.inr (Or.inr (Or.inl ⟨d, rfl, rfl, rfl, rfl, ?_⟩))))
        simp [parseQrContent, h0', h1', hu, he, hs, hw]
      | none =>
      cases hv : parseVCard (jsTrim s) with
      | some d =>
        refine Or.inr (Or.inr (Or.inr (Or.inr (Or.inr (Or.inl ⟨d, rfl, rfl, rfl, rfl, rfl, ?_⟩)))))
        simp [parseQrContent, h0', h1', hu, he, hs, hw, hv]
      | none =>
      cases hp : parsePhone (jsTrim s) with
      | some d =>
        refine Or.inr (Or.inr (Or.inr (Or.inr (Or.inr (Or.inr (Or.inl
          ⟨d, rfl, rfl, rfl, rfl, rfl, rfl, ?_⟩))))))
        simp [parseQrContent, h0', h1', hu, he, hs, hw, hv, hp]
      | none =>
        refine Or.inr (Or.inr (Or.inr (Or.inr (Or.inr (Or.inr (Or.inr
          ⟨rfl, rfl, rfl, rfl, rfl, rfl, ?_⟩))))))
        simp [parseQrContent, h0', h1', hu, he, hs, hw, hv, hp]


theorem applyCheck_of_warnings_nil (cond : Bool) (w r : String) (lvl : Risk)
    (st : SecurityAnalysis) (h : (applyCheck cond w r lvl st).warnings = []) :
    applyCheck cond w r lvl st = st := by
  cases cond with
  | false => rfl
  | true =>
    exfalso
    simp [applyCheck, trigger] at h

theorem protocolCheck_of_warnings_nil (p : String) (st : SecurityAnalysis)
    (h : (protocolCheck p st).warnings = []) : protocolCheck p st = st := by
  unfold protocolCheck at h ⊢
  by_cases h1 : (p == "http:") = true
  · rw [if_pos h1] at h
    simp [trigger] at h
  · rw [if_neg h1] at h ⊢
    by_cases h2 : (p != "https:") = true
    · rw [if_pos h2] at h
      simp [trigger] at h
    · rw [if_neg h2] at h ⊢

theorem sixChecks_low_of_nil (u : UrlObj) (h : (sixChecks u).warnings = []) :
    (sixChecks u).riskLevel = .low := by
  unfold sixChecks at h ⊢
  have h6 := applyCheck_of_warnings_nil _ _ _ _ _ h
  rw [h6] at h ⊢
  have h5 := applyCheck_of_warnings_nil _ _ _ _ _ h
  rw [h5] at h ⊢
  have h4 := applyCheck_of_warnings_nil _ _ _ _ _ h
  rw [h4] at h ⊢
  have h3 := applyCheck_of_warnings_nil _ _ _ _ _ h
  rw [h3] at h ⊢
  have h2 := applyCheck_of_warnings_nil _ _ _ _ _ h
  rw [h2] at h ⊢
  have h1 := protocolCheck_of_warnings_nil _ _ h
  rw [h1]
  rfl

theorem parseVCard_pos (t : String) (d : VCardData) (h : parseVCard t = some d) :
    0 < vcardKeyCount d := by
  unfold parseVCard at h
  dsimp only at h
  split at h
  · split at h
    next hc =>
      injection h with hd
      subst hd
      exact of_decide_eq_true hc
    next => cases h
  · cases h

theorem vcardKeyCount_pos_iff (d : VCardData) :
    0 < vcardKeyCount d ↔
      (d.name.isSome ∨ d.organization.isSome ∨ d.phone.isSome ∨
       d.email.isSome ∨ d.url.isSome) := by
  rcases d with ⟨n, o, p, e, u⟩
  cases n <;> cases o <;> cases p <;> cases e <;> cases u <;> simp [vcardKeyCount]

theorem cleanPhone_chars (s : String) :
    ∀ c ∈ (cleanPhone s).data, (c.isDigit || c == '+') = true := by
  intro c hc
  have hc' : c ∈ s.data.filter (fun c => c.isDigit || c == '+') := hc
  exact (List.mem_filter.mp hc').2

theorem telPattern_of_digits_plus (cs : List Char)
    (hall : ∀ c ∈ cs, (c.isDigit || c == '+') = true) : telPatternMatchL cs = false := by
  match cs with
  | [] => rfl
  | [_] => rfl
  | [_, _] => rfl
  | [_, _, _] => rfl
  | t :: e :: l :: c :: rest =>
    have hc : (c.isDigit || c == '+') = true := hall c (by simp)
    have hcc : (c == ':') = false := by
      cases hb : (c == ':') with
      | false => rfl
      | true =>
        have : c = ':' := by simpa using hb
        subst this
        exact absurd hc (by decide)
    simp [telPatternMatchL, hcc]

theorem telPattern_cleanPhone (s : String) : telPatternMatch (cleanPhone s) = false :=
  telPattern_of_digits_plus _ (cleanPhone_chars s)

theorem telPattern_phoneCandidate (content : String) :
    telPatternMatch (phoneCandidate content) = false := by
  unfold phoneCandidate
  split
  · exact telPattern_cleanPhone _
  · exact telPattern_cleanPhone _


/-- C4: for every input string the classifier's resulting type is that of
the first detector, in the fixed source order URL, Email, SMS, WiFi,
vCard, Phone, Text, whose parse of the trimmed content is non-null. -/
theorem parseQrContent_detector_priority (newURL : String → Option UrlObj) (s : String) :
    (parseQrContent newURL (.str s)).type =
      (if (parseUrl newURL (jsTrim s)).isSome then QrType.url
       else if (parseEmail newURL (jsTrim s)).isSome then QrType.email
       else if (parseSms newURL (jsTrim s)).isSome then QrType.sms
       else if (parseWifi (jsTrim s)).isSome then QrType.wifi
       else if (parseVCard (jsTrim s)).isSome then QrType.vcard
       else if (parsePhone (jsTrim s)).isSome then QrType.phone
       else QrType.text) := by
  rcases parseQrContent_shape newURL s with
    ⟨ht, hr⟩ | ⟨d, hu, hr⟩ | ⟨d, hu, he, hr⟩ | ⟨d, hu, he, hs, hr⟩ |
    ⟨d, hu, he, hs, hw, hr⟩ | ⟨d, hu, he, hs, hw, hv, hr⟩ |
    ⟨d, hu, he, hs, hw, hv, hp, hr⟩ | ⟨hu, he, hs, hw, hv, hp, hr⟩
  · rw [hr, ht]; rfl
  · rw [hr, hu]; rfl
  · rw [hr, hu, he]; rfl
  · rw [hr, hu, he, hs]; rfl
  · rw [hr, hu, he, hs, hw]; rfl
  · rw [hr, hu, he, hs, hw, hv]; rfl
  · rw [hr, hu, he, hs, hw, hv, hp]; rfl
  · rw [hr, hu, he, hs, hw, hv, hp]; rfl

/-- C1: the classifier is total on every input value; the returned type
is always one of the seven enumerated values; when no detector matches a
string it falls back to text carrying the (trimmed) content, and for an
unusable input (null, undefined, non-string) it falls back to empty
text. -/
theorem parseQrContent_total_type_fallback (newURL : String → Option UrlObj) (v : JsInput) :
    ((parseQrContent newURL v).type = .url ∨ (parseQrContent newURL v).type = .email ∨
     (parseQrContent newURL v).type = .phone ∨ (parseQrContent newURL v).type = .sms ∨
     (parseQrContent newURL v).type = .wifi ∨ (parseQrContent newURL v).type = .vcard ∨
     (parseQrContent newURL v).type = .text) ∧
    (∀ s, v = .str s →
      parseUrl newURL (jsTrim s) = none → parseEmail newURL (jsTrim s) = none →
      parseSms newURL (jsTrim s) = none → parseWifi (jsTrim s) = none →
      parseVCard (jsTrim s) = none → parsePhone (jsTrim s) = none →
      parseQrContent newURL v = textResult (jsTrim s)) ∧
    ((v = .nullV ∨ v = .undefinedV ∨ v = .nonString) →
      parseQrContent newURL v = textResult "") := by
  refine ⟨?_, ?_, ?_⟩
  · cases hty : (parseQrContent newURL v).type
    · exact Or.inl rfl
    · exact Or.inr (Or.inl rfl)
    · exact Or.inr (Or.inr (Or.inl rfl))
    · exact Or.inr (Or.inr (Or.inr (Or.inl rfl)))
    · exact Or.inr (Or.inr (Or.inr (Or.inr (Or.inl rfl))))
    · exact Or.inr (Or.inr (Or.inr (Or.inr (Or.inr (Or.inl rfl)))))
    · exact Or.inr (Or.inr (Or.inr (Or.inr (Or.inr (Or.inr rfl)))))
  · rintro s rfl hu he hs hw hv hp
    rcases parseQrContent_shape newURL s with
      ⟨ht, hr⟩ | ⟨d, hu', hr⟩ | ⟨d, _, he', hr⟩ | ⟨d, _, _, hs', hr⟩ |
      ⟨d, _, _, _, hw', hr⟩ | ⟨d, _, _, _, _, hv', hr⟩ |
      ⟨d, _, _, _, _, _, hp', hr⟩ | ⟨_, _, _, _, _, _, hr⟩
    · rw [hr, ht]
    · rw [hu] at hu'; cases hu'
    · rw [he] at he'; cases he'
    · rw [hs] at hs'; cases hs'
    · rw [hw] at hw'; cases hw'
    · rw [hv] at hv'; cases hv'
    · rw [hp] at hp'; cases hp'
    · exact hr
  · rintro (rfl | rfl | rfl) <;> rfl

/-- C1 witness: at the concrete input " ~ " every detector fails and the
classifier returns the text fallback with the trimmed content; at null it
returns empty text. -/
theorem parseQrContent_total_type_fallback_witness :
    parseQrContent noURL (.str " ~ ") = textResult (jsTrim " ~ ") ∧
    parseQrContent noURL .nullV = textResult "" :=
  ⟨(parseQrContent_total_type_fallback noURL (.str " ~ ")).2.1 " ~ " rfl
      (by decide) (by decide) (by decide) (by decide) (by decide) (by decide),
   (parseQrContent_total_type_fallback noURL .nullV).2.2 (Or.inl rfl)⟩

/-- C5: the empty string, a whitespace-only string, null, undefined and a
non-string value all classify as text with empty text payload. -/
theorem parseQrContent_degenerate_inputs (newURL : String → Option UrlObj) :
    parseQrContent newURL (.str "") = textResult "" ∧
    parseQrContent newURL (.str " \t\n ") = textResult "" ∧
    parseQrContent newURL .nullV = textResult "" ∧
    parseQrContent newURL .undefinedV = textResult "" ∧
    parseQrContent newURL .nonString = textResult "" :=
  ⟨rfl, rfl, rfl, rfl, rfl⟩


/-- C8 (code bug): the WiFi detector passes any nonempty `T:` value
straight through, so the input below is classified wifi with security
"WPA2", which is none of the three values WPA, WEP, nopass declared by
the source's own WiFiData interface and required by the spec. -/
theorem parseWifi_security_passthrough_bug (newURL : String → Option UrlObj) :
    parseWifi "WIFI:T:WPA2;S:MyNet;P:pw;H:false;;" = some ⟨"MyNet", "pw", "WPA2", false⟩ ∧
    parseQrContent newURL (.str "WIFI:T:WPA2;S:MyNet;P:pw;H:false;;") =
      ⟨.wifi, .wifiD ⟨"MyNet", "pw", "WPA2", false⟩⟩ ∧
    ("WPA2" ≠ "WPA" ∧ "WPA2" ≠ "WEP" ∧ "WPA2" ≠ "nopass") :=
  ⟨rfl, rfl, by decide⟩

/-- C9: every input classified vcard carries at least one assigned field
among name, organization, phone, email, url; the marker-only vCard below
classifies as text, not vcard. -/
theorem parseVCard_at_least_one_field (newURL : String → Option UrlObj) (s : String) :
    ((parseQrContent newURL (.str s)).type = .vcard →
      ∃ d, (parseQrContent newURL (.str s)).parsedData = .vcardD d ∧
        (d.name.isSome ∨ d.organization.isSome ∨ d.phone.isSome ∨
         d.email.isSome ∨ d.url.isSome)) ∧
    parseQrContent newURL (.str "BEGIN:VCARD\nEND:VCARD") =
      textResult "BEGIN:VCARD\nEND:VCARD" := by
  constructor
  · intro hty
    rcases parseQrContent_shape newURL s with
      ⟨ht, hr⟩ | ⟨d, hu, hr⟩ | ⟨d, hu, he, hr⟩ | ⟨d, hu, he, hs, hr⟩ |
      ⟨d, hu, he, hs, hw, hr⟩ | ⟨d, hu, he, hs, hw, hv, hr⟩ |
      ⟨d, hu, he, hs, hw, hv, hp, hr⟩ | ⟨hu, he, hs, hw, hv, hp, hr⟩
    · rw [hr] at hty; cases hty
    · rw [hr] at hty; cases hty
    · rw [hr] at hty; cases hty
    · rw [hr] at hty; cases hty
    · rw [hr] at hty; cases hty
    · exact ⟨d, by rw [hr], (vcardKeyCount_pos_iff d).mp (parseVCard_pos _ _ hv)⟩
    · rw [hr] at hty; cases hty
    · rw [hr] at hty; cases hty
  · rfl

/-- C9 witness: a vCard carrying one FN field is classified vcard with a
positive field count. -/
theorem parseVCard_at_least_one_field_witness :
    ∃ d, (parseQrContent noURL (.str "BEGIN:VCARD\nFN:John Doe\nEND:VCARD")).parsedData =
        .vcardD d ∧
      (d.name.isSome ∨ d.organization.isSome ∨ d.phone.isSome ∨
       d.email.isSome ∨ d.url.isSome) :=
  (parseVCard_at_least_one_field noURL "BEGIN:VCARD\nFN:John Doe\nEND:VCARD").1 (by decide)

/-- C10 counterexample: an input with the WIFI: prefix and an empty SSID
whose password is ten digits is rejected by the WiFi detector but then
accepted by the phone detector, so it classifies as phone, not text as
the claim states. -/
theorem wifi_empty_ssid_counterexample :
    startsWithCI (jsTrim "WIFI:S:;P:1234567890;") "wifi:" = true ∧
    (jsObjGet (wifiParams (jsDrop (jsTrim "WIFI:S:;P:1234567890;") 5)) "S").getD "" = "" ∧
    (parseQrContent noURL (.str "WIFI:S:;P:1234567890;")).type = .phone ∧
    (parseQrContent noURL (.str "WIFI:S:;P:1234567890;")).type ≠ .text := by
  decide

/-- C10 (amended): a trimmed input with the WIFI: prefix whose S key
resolves to the empty string is rejected by the WiFi detector and is
never classified wifi (it falls through to the later detectors). -/
theorem wifi_empty_ssid_never_wifi (newURL : String → Option UrlObj) (s : String)
    (h1 : startsWithCI (jsTrim s) "wifi:" = true)
    (h2 : (jsObjGet (wifiParams (jsDrop (jsTrim s) 5)) "S").getD "" = "") :
    parseWifi (jsTrim s) = none ∧ (parseQrContent newURL (.str s)).type ≠ .wifi := by
  have hwn : parseWifi (jsTrim s) = none := by
    unfold parseWifi
    rw [if_pos h1]
    simp [h2]
  refine ⟨hwn, ?_⟩
  rcases parseQrContent_shape newURL s with
    ⟨ht, hr⟩ | ⟨d, hu, hr⟩ | ⟨d, hu, he, hr⟩ | ⟨d, hu, he, hs, hr⟩ |
    ⟨d, hu, he, hs, hw, hr⟩ | ⟨d, hu, he, hs, hw, hv, hr⟩ |
    ⟨d, hu, he, hs, hw, hv, hp, hr⟩ | ⟨hu, he, hs, hw, hv, hp, hr⟩
  · rw [hr]; simp [textResult]
  · rw [hr]; simp
  · rw [hr]; simp
  · rw [hr]; simp
  · rw [hwn] at hw; cases hw
  · rw [hr]; simp
  · rw [hr]; simp
  · rw [hr]; simp [textResult]

/-- C10 witness: the amended statement at a concrete empty-SSID WiFi
string (here the fallthrough lands on text). -/
theorem wifi_empty_ssid_never_wifi_witness :
    parseWifi (jsTrim "WIFI:S:;T:WPA;P:pw;") = none ∧
    (parseQrContent noURL (.str "WIFI:S:;T:WPA;P:pw;")).type ≠ .wifi :=
  wifi_empty_ssid_never_wifi noURL "WIFI:S:;T:WPA;P:pw;" (by decide) (by decide)

/-- C7 counterexample: the phone detector accepts "+123456" although it
contains only six digits, because the source gates on the length of the
cleaned string (seven, counting the leading plus), not on the digit
count; the claim's "rejects when the resulting digit count is below 7"
is therefore false. -/
theorem parsePhone_digit_count_counterexample :
    (("+123456" : String).data.filter Char.isDigit).length = 6 ∧
    parsePhone "+123456" = some ⟨"+123456", "+123456"⟩ ∧
    parsePhone "+123456" ≠ none := by
  decide

/-- C7 (amended): the phone detector accepts a trimmed input exactly when
the candidate string (all digits and plus signs kept, a tel: prefix
stripped first) matches the international form (a plus then 5-17 digits)
or the domestic form (10-15 digits) and has length at least 7, the
leading plus counting toward the length; the tel: pattern of the source
can never match a cleaned candidate and is dead. -/
theorem parsePhone_accepts_iff (content : String) :
    (parsePhone content).isSome = true ↔
      ((intlFormMatch (phoneCandidate content) ||
        domesticFormMatch (phoneCandidate content)) = true ∧
       7 ≤ (phoneCandidate content).length) := by
  have hdead := telPattern_phoneCandidate content
  unfold parsePhone
  dsimp only
  rw [hdead]
  simp only [Bool.or_false]
  split
  next hcond =>
    rw [Bool.and_eq_true] at hcond
    simp only [Option.isSome_some, true_iff]
    exact ⟨hcond.1, by simpa using hcond.2⟩
  next hcond =>
    simp only [Option.isSome_none]
    constructor
    · intro h; cases h
    · rintro ⟨ha, hb⟩
      exact absurd (by rw [Bool.and_eq_true]; exact ⟨ha, by simpa using hb⟩) hcond


/-- C2: the aggregate pass after the six unconditional checks on a
parseable URL: zero warnings give low risk with isSafe exactly for the
https protocol; three or more warnings, or a risk already set high by a
check, give high risk and unsafe; one or two warnings (risk not yet
high) give medium risk and unsafe. -/
theorem checkUrlSafety_aggregate_pass (u : UrlObj) :
    ((sixChecks u).warnings.length = 0 →
      (afterAggregate u).riskLevel = .low ∧
      (afterAggregate u).isSafe = (u.protocol == "https:")) ∧
    (3 ≤ (sixChecks u).warnings.length ∨ (sixChecks u).riskLevel = .high →
      (afterAggregate u).riskLevel = .high ∧ (afterAggregate u).isSafe = false) ∧
    ((sixChecks u).warnings.length ≠ 0 → (sixChecks u).warnings.length < 3 →
      (sixChecks u).riskLevel ≠ .high →
      (afterAggregate u).riskLevel = .medium ∧ (afterAggregate u).isSafe = false) := by
  refine ⟨?_, ?_, ?_⟩
  · intro h0
    simp [afterAggregate, aggregateRisk, h0]
  · rintro (h3 | hh)
    · have hne : (sixChecks u).warnings.length ≠ 0 := by omega
      simp [afterAggregate, aggregateRisk, hne, h3]
    · by_cases hlen : (sixChecks u).warnings.length = 0
      · exfalso
        have hlow := sixChecks_low_of_nil u (List.length_eq_zero.mp hlen)
        rw [hh] at hlow
        cases hlow
      · simp [afterAggregate, aggregateRisk, hlen, hh]
  · intro h1 h2 h3
    have hge : 1 ≤ (sixChecks u).warnings.length := by omega
    have hlt : ¬(3 ≤ (sixChecks u).warnings.length) := by omega
    simp [afterAggregate, aggregateRisk, h1, hlt, h3, hge]

/-- C2 witness: the three aggregate cases at concrete parsed URLs — a
clean https URL (zero warnings, low, safe), an http shortener URL with a
redirect parameter (three warnings, high), and a plain http URL (one
warning, medium). -/
theorem checkUrlSafety_aggregate_pass_witness :
    ((afterAggregate ⟨"example.org", "https:", "/", []⟩).riskLevel = .low ∧
     (afterAggregate ⟨"example.org", "https:", "/", []⟩).isSafe = ("https:" == "https:")) ∧
    ((afterAggregate ⟨"bit.ly", "http:", "/", [("redirect", "x")]⟩).riskLevel = .high ∧
     (afterAggregate ⟨"bit.ly", "http:", "/", [("redirect", "x")]⟩).isSafe = false) ∧
    ((afterAggregate ⟨"example.org", "http:", "/", []⟩).riskLevel = .medium ∧
     (afterAggregate ⟨"example.org", "http:", "/", []⟩).isSafe = false) :=
  ⟨(checkUrlSafety_aggregate_pass ⟨"example.org", "https:", "/", []⟩).1 (by decide),
   (checkUrlSafety_aggregate_pass ⟨"bit.ly", "http:", "/", [("redirect", "x")]⟩).2.1
     (Or.inl (by decide)),
   (checkUrlSafety_aggregate_pass ⟨"example.org", "http:", "/", []⟩).2.2
     (by decide) (by decide) (by decide)⟩

/-- C3: the safe-domain override: for a whitelisted https hostname the
final result is forced safe and low exactly when the risk reached by the
earlier checks is not high, and is left untouched (high) otherwise; in
particular the whitelisted https URL google.com/phishing stays high
because of the keyword check, while the clean https URL example.org ends
low and safe although absent from the whitelist. -/
theorem checkUrlSafety_safe_domain_override (turl : String) (u : UrlObj)
    (hs : isSafeDomain (jsToLower u.hostname) = true) (hp : u.protocol = "https:") :
    ((forcingChecks turl u).riskLevel ≠ .high →
      analyzeUrl turl u = { forcingChecks turl u with isSafe := true, riskLevel := .low }) ∧
    ((forcingChecks turl u).riskLevel = .high →
      analyzeUrl turl u = forcingChecks turl u) ∧
    ((analyzeUrl "https://google.com/phishing"
        ⟨"google.com", "https:", "/phishing", []⟩).riskLevel = .high ∧
     (analyzeUrl "https://google.com/phishing"
        ⟨"google.com", "https:", "/phishing", []⟩).isSafe = false) ∧
    ((analyzeUrl "https://example.org" ⟨"example.org", "https:", "/", []⟩).riskLevel = .low ∧
     (analyzeUrl "https://example.org" ⟨"example.org", "https:", "/", []⟩).isSafe = true ∧
     isSafeDomain "example.org" = false) := by
  refine ⟨?_, ?_, by decide, by decide⟩
  · intro hne
    unfold analyzeUrl safeDomainOverride
    rw [hs, hp]
    simp [hne]
  · intro hh
    unfold analyzeUrl safeDomainOverride
    rw [hs, hp]
    simp [hh]


/-- C6 (code bug): the memoizing cache of checkUrlSafety is observable.
Analyzing the lowercase URL first stores a high-risk result under the
lowercased cache key; a following call on the uppercase variant within
the TTL hits that entry and returns the high-risk record, while a fresh
computation on the very same uppercase input returns low risk and safe.
The hit and the miss are not value-equal, contradicting the required
invisibility of the cache. -/
theorem checkUrlSafety_cache_not_invisible :
    (checkUrlSafetyS cacheOracle 1000 false cacheUrlUpper
        (checkUrlSafetyS cacheOracle 0 false cacheUrlLower []).2).1 =
      (checkUrlSafetyS cacheOracle 0 false cacheUrlLower []).1 ∧
    (checkUrlSafetyS cacheOracle 1000 false cacheUrlUpper
        (checkUrlSafetyS cacheOracle 0 false cacheUrlLower []).2).1.riskLevel = .high ∧
    (checkUrlSafetyS cacheOracle 1000 false cacheUrlUpper []).1.riskLevel = .low ∧
    (checkUrlSafetyS cacheOracle 1000 false cacheUrlUpper []).1.isSafe = true ∧
    (checkUrlSafetyS cacheOracle 1000 false cacheUrlUpper
        (checkUrlSafetyS cacheOracle 0 false cacheUrlLower []).2).1 ≠
      (checkUrlSafetyS cacheOracle 1000 false cacheUrlUpper []).1 := by
  decide


/-- C3 witness: at the whitelisted clean https URL google.com the risk
before the override step is not high, and the override fires, forcing
safe and low. -/
theorem checkUrlSafety_safe_domain_override_witness :
    analyzeUrl "https://google.com/" ⟨"google.com", "https:", "/", []⟩ =
      { forcingChecks "https://google.com/" ⟨"google.com", "https:", "/", []⟩ with
        isSafe := true, riskLevel := .low } :=
  (checkUrlSafety_safe_domain_override "https://google.com/"
    ⟨"google.com", "https:", "/", []⟩ (by decide) rfl).1 (by decide)
